import Mathlib

/-!
Shallow embedding of the MCP subsystem of `llm-tool-hub`
(`integrations/mcp_server.py`, `integrations/mcp_adapter.py`,
`transports/base_transport.py`, `transports/stdio_transport.py`).

Python values appearing in JSON-RPC messages are modelled by the inductive
type `PyVal` (JSON-like values plus Python `None`); Python dictionaries are
association lists whose lookup is last-binding-wins, matching construction
of a `dict` from key/value pairs.  Raising code is modelled with
`Except PyExn`.  `json.loads` (standard library, not repository code) is a
parameter of the stdio read-loop model.
-/

inductive PyVal where
  | none
  | bool (b : Bool)
  | int (n : Int)
  | str (s : String)
  | list (xs : List PyVal)
  | dict (kvs : List (String × PyVal))

/-- Python truthiness (`if not x`) for the modelled values. -/
def PyVal.truthy : PyVal → Bool
  | .none => false
  | .bool b => b
  | .int n => n != 0
  | .str s => s != ""
  | .list xs => !xs.isEmpty
  | .dict kvs => !kvs.isEmpty

/-- Python `x is None`. -/
def PyVal.isNone : PyVal → Bool
  | .none => true
  | _ => false

/-- Dictionary lookup: the last binding of a key wins, as when a Python
`dict` is built from a sequence of key/value pairs.  Returns `Option.none`
exactly when the key is absent (a stored `None` value is `some PyVal.none`). -/
def alistGet {α : Type} : List (String × α) → String → Option α
  | [], _ => Option.none
  | (k', v) :: rest, k =>
      match alistGet rest k with
      | some w => some w
      | Option.none => if k' = k then some v else Option.none

/-- A single-quote character, used when rendering Python `repr` text. -/
def squote : String := String.singleton (Char.ofNat 39)

mutual

/-- Python `repr` of a modelled value (string escaping is not modelled;
no message asserted by a theorem below contains characters needing it). -/
def pyRepr : PyVal → String
  | .none => "None"
  | .bool true => "True"
  | .bool false => "False"
  | .int n => toString n
  | .str s => squote ++ s ++ squote
  | .list xs => "[" ++ String.intercalate ", " (pyReprList xs) ++ "]"
  | .dict kvs => "\x7b" ++ String.intercalate ", " (pyReprPairs kvs) ++ "\x7d"

def pyReprList : List PyVal → List String
  | [] => []
  | v :: vs => pyRepr v :: pyReprList vs

def pyReprPairs : List (String × PyVal) → List String
  | [] => []
  | (k, v) :: ps => (squote ++ k ++ squote ++ ": " ++ pyRepr v) :: pyReprPairs ps

end

/-- Python `str` of a modelled value (as used by f-string interpolation). -/
def pyStr : PyVal → String
  | .str s => s
  | v => pyRepr v

/-- Modelled Python exceptions, tagged by the classes the embedded code
distinguishes with `except` clauses. -/
inductive PyExn where
  | typeError (msg : String)
  | valueError (msg : String)
  | attributeError (msg : String)
  | other (msg : String)

/-- `str(e)` for a modelled exception. -/
def PyExn.message : PyExn → String
  | .typeError m => m
  | .valueError m => m
  | .attributeError m => m
  | .other m => m

/-- Python `d.get(k, default)`; raises `AttributeError` when the receiver is
not a dict, as Python does for `.get` on a non-mapping. -/
def PyVal.get (v : PyVal) (k : String) (default : PyVal) : Except PyExn PyVal :=
  match v with
  | .dict kvs => .ok ((alistGet kvs k).getD default)
  | _ => .error (.attributeError "object has no attribute get")

def PyVal.isDict : PyVal → Bool
  | .dict _ => true
  | _ => false

def dictHasKey : PyVal → String → Bool
  | .dict kvs, k => kvs.any (fun p => p.1 == k)
  | _, _ => false

/-- The `id` member of a response object (`PyVal.none` when absent). -/
def respIdOf : PyVal → PyVal
  | .dict kvs => (alistGet kvs "id").getD PyVal.none
  | _ => PyVal.none

/-!
Tool and adapter model (`mcp_adapter.py`).  A `Tool` is the contract the
MCP subsystem consumes from `BaseTool`: name, description, a JSON-Schema
dict `parameters`, and a keyword-argument entry point `run` that may raise.
-/

structure Tool where
  name : String
  description : String
  parameters : List (String × PyVal)
  run : List (String × PyVal) → Except PyExn PyVal

/-- Insertion into a Python dict built up by assignment: an existing key
keeps its position and gets the new value, a new key is appended. -/
def dictInsert {α : Type} (kvs : List (String × α)) (k : String) (v : α) :
    List (String × α) :=
  if kvs.any (fun p => p.1 == k) then
    kvs.map (fun p => if p.1 == k then (k, v) else p)
  else
    kvs ++ [(k, v)]

/-- The dict comprehension in `MCPAdapter.__init__`:
`{tool.name: tool for tool in tools}`. -/
def pyDictOfTools (tools : List Tool) : List (String × Tool) :=
  tools.foldl (fun acc t => dictInsert acc t.name t) []

structure MCPAdapter where
  tools : List (String × Tool)

def MCPAdapter.ofTools (ts : List Tool) : MCPAdapter :=
  { tools := pyDictOfTools ts }

/-- `MCPAdapter._tool_to_mcp_schema`. -/
def toolToMcpSchema (t : Tool) : PyVal :=
  .dict [("name", .str t.name),
         ("description", .str t.description),
         ("inputSchema", .dict
           [("type", .str "object"),
            ("properties", (alistGet t.parameters "properties").getD (.dict [])),
            ("required", (alistGet t.parameters "required").getD (.list []))])]

/-- `MCPAdapter.list_tools`. -/
def MCPAdapter.list_tools (a : MCPAdapter) : List PyVal :=
  a.tools.map (fun p => toolToMcpSchema p.2)

/-- `tool_name in self.tools` followed by `self.tools[tool_name]`; a
non-hashable key raises `TypeError`, a hashable non-key misses. -/
def lookupToolKey (kvs : List (String × Tool)) : PyVal → Except PyExn (Option Tool)
  | .list _ => .error (.typeError "unhashable type: list")
  | .dict _ => .error (.typeError "unhashable type: dict")
  | .str s => .ok (alistGet kvs s)
  | _ => .ok Option.none

/-- `list(self.tools.keys())` as rendered by an f-string. -/
def reprToolKeys (kvs : List (String × Tool)) : String :=
  "[" ++ String.intercalate ", " (kvs.map (fun p => squote ++ p.1 ++ squote)) ++ "]"

/-- `tool.run(**arguments)`: unpacking a non-mapping raises `TypeError`
at the call site, inside the `try` block of `execute_tool`. -/
def kwargsUnpack (arguments : PyVal) : Except PyExn (List (String × PyVal)) :=
  match arguments with
  | .dict kvs => .ok kvs
  | _ => .error (.typeError "argument after ** must be a mapping")

/-- `MCPAdapter.execute_tool` (lines 80-115 of `mcp_adapter.py`): unknown
tool raises `ValueError` listing the registered names; the tool is invoked
directly (no schema validation first); a `TypeError` escaping the call is
rewritten to `ValueError` with an invalid-arguments message; any other
exception propagates; on success returns `str(result)`. -/
def MCPAdapter.execute_tool (a : MCPAdapter) (toolName arguments : PyVal) :
    Except PyExn PyVal :=
  match lookupToolKey a.tools toolName with
  | .error e => .error e
  | .ok Option.none =>
      .error (.valueError ("Tool " ++ squote ++ pyStr toolName ++ squote ++
        " not found. Available tools: " ++ reprToolKeys a.tools))
  | .ok (some tool) =>
      match (kwargsUnpack arguments).bind tool.run with
      | .ok result => .ok (.str (pyStr result))
      | .error (.typeError m) =>
          .error (.valueError ("Invalid arguments for tool " ++ squote ++
            pyStr toolName ++ squote ++ ": " ++ m))
      | .error e => .error e

/-!
Server model (`mcp_server.py`).
-/

structure Server where
  adapter : MCPAdapter
  serverName : String
  serverVersion : String

/-- Result dict of the initialize handler (`mcp_server.py` lines 124-147). -/
def initializeResult (name version : String) : PyVal :=
  .dict [("protocolVersion", .str "2024-11-05"),
         ("capabilities", .dict [("tools", .dict [])]),
         ("serverInfo", .dict [("name", .str name), ("version", .str version)])]

/-- The initialize handler: the log line reads
`params.get('clientInfo', {}).get('name', 'unknown')`, which raises when
`params` (or a present `clientInfo`) is not a mapping. -/
def handleInitRequest (name version : String) (params : PyVal) :
    Except PyExn PyVal :=
  match params.get "clientInfo" (.dict []) with
  | .error e => .error e
  | .ok clientInfo =>
      match clientInfo.get "name" (.str "unknown") with
      | .error e => .error e
      | .ok _ => .ok (initializeResult name version)

/-- `_handle_list_tools`. -/
def handle_list_tools (a : MCPAdapter) (_params : PyVal) : Except PyExn PyVal :=
  .ok (.dict [("tools", .list a.list_tools)])

/-- `_handle_call_tool` (lines 168-211): both of its `except` clauses
re-raise, so errors from the adapter pass through unchanged. -/
def handle_call_tool (a : MCPAdapter) (params : PyVal) : Except PyExn PyVal :=
  match params.get "name" PyVal.none with
  | .error e => .error e
  | .ok toolName =>
      match params.get "arguments" (.dict []) with
      | .error e => .error e
      | .ok arguments =>
          if !toolName.truthy then .error (.valueError "Tool name is required")
          else
            match a.execute_tool toolName arguments with
            | .error e => .error e
            | .ok result =>
                .ok (.dict [("content", .list
                  [.dict [("type", .str "text"), ("text", result)]])])

/-- `_error_response` (lines 213-248): the `data` member is added only when
`data is not None`, the `id` member only when `msg_id is not None`. -/
def error_response (msgId : PyVal) (code : Int) (message : String)
    (data : PyVal) : PyVal :=
  let err : List (String × PyVal) :=
    [("code", .int code), ("message", .str message)]
  let err := if data.isNone then err else err ++ [("data", data)]
  let resp : List (String × PyVal) := [("jsonrpc", .str "2.0"), ("error", .dict err)]
  let resp := if msgId.isNone then resp else resp ++ [("id", msgId)]
  .dict resp

/-- `self._request_handlers.get(method)`: the fixed dispatch table built in
`__init__`; an unhashable key raises `TypeError` inside the outer `try`. -/
def dispatchLookup (srv : Server) (method : PyVal) :
    Except PyExn (Option (PyVal → Except PyExn PyVal)) :=
  match method with
  | .list _ => .error (.typeError "unhashable type: list")
  | .dict _ => .error (.typeError "unhashable type: dict")
  | .str s =>
      if s = "initialize" then
        .ok (some (handleInitRequest srv.serverName srv.serverVersion))
      else if s = "tools/list" then .ok (some (handle_list_tools srv.adapter))
      else if s = "tools/call" then .ok (some (handle_call_tool srv.adapter))
      else .ok Option.none
  | _ => .ok Option.none

/-- `message.get("method")`. -/
def msgMethod (kvs : List (String × PyVal)) : PyVal :=
  (alistGet kvs "method").getD PyVal.none

/-- Python `message.get("params", \x7b\x7d)`: the default applies only when the
key is absent. -/
def msgParams (kvs : List (String × PyVal)) : PyVal :=
  (alistGet kvs "params").getD (.dict [])

/-- `message.get("id")`. -/
def msgIdOf (kvs : List (String × PyVal)) : PyVal :=
  (alistGet kvs "id").getD PyVal.none

/-- Body of the `try` block of `_handle_message` (lines 87-117). -/
def handleMessageBody (srv : Server) (message : PyVal) :
    Except PyExn (Option PyVal) :=
  match message with
  | .dict kvs =>
      if !(msgMethod kvs).truthy then
        .ok (some (error_response (msgIdOf kvs) (-32600) "Invalid Request" .none))
      else
        match dispatchLookup srv (msgMethod kvs) with
        | .error e => .error e
        | .ok Option.none =>
            .ok (some (error_response (msgIdOf kvs) (-32601)
              ("Method not found: " ++ pyStr (msgMethod kvs)) .none))
        | .ok (some h) =>
            match h (msgParams kvs) with
            | .error e => .error e
            | .ok result =>
                if (msgIdOf kvs).isNone then .ok Option.none
                else .ok (some (.dict [("jsonrpc", .str "2.0"),
                  ("id", msgIdOf kvs), ("result", result)]))
  | _ => .ok (some (error_response .none (-32700) "Parse error" .none))

/-- `_handle_message` (lines 77-122): the catch-all turns any exception
into an Internal Error response, re-extracting the id from the message. -/
def handle_message (srv : Server) (message : PyVal) : Option PyVal :=
  match handleMessageBody srv message with
  | .ok r => r
  | .error e =>
      let msgId := match message with
        | .dict kvs => msgIdOf kvs
        | _ => PyVal.none
      some (error_response msgId (-32603)
        ("Internal error: " ++ e.message) .none)

/-!
`ToolHubMCPServer.run` (lines 59-75).  The body (start + message loop) is
abstracted by its outcome; `run` wraps it in
`try/except KeyboardInterrupt/except Exception/finally stop`.
-/

/-- Outcome of `transport.start(); transport.run_message_loop(...)`. -/
inductive BodyOutcome where
  | normal
  | interrupted (msg : String)
  | failed (msg : String)

/-- What `run()` is observed to do: whether the `finally` block ran
`transport.stop()`, and which exception (if any) escapes to the caller. -/
structure RunTrace where
  stopCalled : Bool
  propagated : Option BodyOutcome

/-- `ToolHubMCPServer.run`: `except KeyboardInterrupt` logs only,
`except Exception` logs only, `finally` always stops the transport. -/
def serverRun (body : BodyOutcome) : RunTrace :=
  match body with
  | .normal => { stopCalled := true, propagated := Option.none }
  | .interrupted _ => { stopCalled := true, propagated := Option.none }
  | .failed _ => { stopCalled := true, propagated := Option.none }

/-!
`BaseTransport.run_message_loop` (lines 66-103 of `base_transport.py`):
dequeue one message, await the handler to completion, send its response (if
any) before touching the next message; exceptions in the loop body are
logged and the loop continues.  The sequence of `receive()` results is the
input (`Option.none` models an empty-queue poll / timeout).
-/

def runMessageLoop (handler : PyVal → Except PyExn (Option PyVal)) :
    List (Option PyVal) → List PyVal
  | [] => []
  | Option.none :: rest => runMessageLoop handler rest
  | some m :: rest =>
      match handler m with
      | .ok (some r) => r :: runMessageLoop handler rest
      | .ok Option.none => runMessageLoop handler rest
      | .error _ => runMessageLoop handler rest

/-!
`StdioTransport._read_loop` (lines 95-150 of `stdio_transport.py`), one
line at a time.  `json.loads` is the standard library's decoder, external
to the repository, so it is a parameter: `Option.none` models
`json.JSONDecodeError`.
-/

structure ReadState where
  queue : List PyVal
  sent : List PyVal
  running : Bool

/-- The parse-error response synthesised by the read loop (lines 131-137). -/
def parseErrorResponse : PyVal :=
  .dict [("jsonrpc", .str "2.0"),
         ("error", .dict [("code", .int (-32700)), ("message", .str "Parse error")])]

/-- `line.rstrip(a newline)`. -/
def stripTrailingNewlines (s : String) : String :=
  String.mk ((s.data.reverse.dropWhile (fun c => c == Char.ofNat 10)).reverse)

/-- One iteration of the read loop on a raw line from `readline()`: an
empty read is EOF (stop running); a line that is blank after stripping is
skipped; a decodable line is enqueued; an undecodable line sends the
parse-error response and enqueues nothing. -/
def readStep (decode : String → Option PyVal) (st : ReadState) (line : String) :
    ReadState :=
  if line = "" then { st with running := false }
  else
    let stripped := stripTrailingNewlines line
    if stripped = "" then st
    else
      match decode stripped with
      | some m => { st with queue := st.queue ++ [m] }
      | Option.none => { st with sent := st.sent ++ [parseErrorResponse] }

/-- The read loop over a list of raw input lines, gated by `_running`. -/
def readLoop (decode : String → Option PyVal) (st : ReadState) :
    List String → ReadState
  | [] => st
  | line :: rest =>
      if st.running then readLoop decode (readStep decode st line) rest else st

/-!
Concrete instances used by witnesses and counterexamples: the `SimpleTool`
echo tool from the repository's MCP server tests and the spec's concrete
scenarios, and a server exposing it.
-/

/-- `SimpleTool.run(self, text)` returning `f"Echo: (text)"`: a missing or
extra keyword argument raises `TypeError` as the Python call would. -/
def simpleToolRun (kvs : List (String × PyVal)) : Except PyExn PyVal :=
  if kvs.any (fun p => p.1 != "text") then
    .error (.typeError "run() got an unexpected keyword argument")
  else
    match alistGet kvs "text" with
    | some v => .ok (.str ("Echo: " ++ pyStr v))
    | Option.none =>
        .error (.typeError "run() missing 1 required positional argument: text")

def simpleTool : Tool :=
  { name := "simple",
    description := "Simple test tool",
    parameters :=
      [("type", .str "object"),
       ("properties", .dict [("text", .dict [("type", .str "string")])]),
       ("required", .list [.str "text"])],
    run := simpleToolRun }

def srv0 : Server :=
  { adapter := MCPAdapter.ofTools [simpleTool],
    serverName := "llm-tool-hub",
    serverVersion := "1.0.0" }

/-!
Helper lemmas shared by the claim theorems.
-/

theorem PyVal.isNone_true_iff (v : PyVal) : v.isNone = true ↔ v = PyVal.none := by
  cases v <;> simp [PyVal.isNone]

theorem error_response_without_id (code : Int) (s : String) :
    error_response PyVal.none code s PyVal.none =
      .dict [("jsonrpc", .str "2.0"),
             ("error", .dict [("code", .int code), ("message", .str s)])] := rfl

theorem error_response_with_id (m : PyVal) (code : Int) (s : String)
    (hm : m.isNone = false) :
    error_response m code s PyVal.none =
      .dict [("jsonrpc", .str "2.0"),
             ("error", .dict [("code", .int code), ("message", .str s)]),
             ("id", m)] := by
  cases m with
  | none => simp [PyVal.isNone] at hm
  | bool b => rfl
  | int n => rfl
  | str t => rfl
  | list xs => rfl
  | dict kvs => rfl

theorem respIdOf_result (m r : PyVal) :
    respIdOf (.dict [("jsonrpc", .str "2.0"), ("id", m), ("result", r)]) = m := rfl

theorem respIdOf_error_with_id (m : PyVal) (code : Int) (s : String) :
    respIdOf (.dict [("jsonrpc", .str "2.0"),
      ("error", .dict [("code", .int code), ("message", .str s)]), ("id", m)]) = m := rfl

/-- On a message whose method dispatches to a handler, `_handle_message`
either wraps the handler's result (requests) or returns nothing
(notifications), and converts a raised exception to an Internal Error
response carrying the same extracted id. -/
theorem handle_message_dispatched (srv : Server) (kvs : List (String × PyVal))
    (h : PyVal → Except PyExn PyVal)
    (ht : (msgMethod kvs).truthy = true)
    (hd : dispatchLookup srv (msgMethod kvs) = .ok (some h)) :
    handle_message srv (.dict kvs) =
      match h (msgParams kvs) with
      | .ok result =>
          if (msgIdOf kvs).isNone then Option.none
          else some (.dict [("jsonrpc", .str "2.0"), ("id", msgIdOf kvs),
            ("result", result)])
      | .error e =>
          some (error_response (msgIdOf kvs) (-32603)
            ("Internal error: " ++ e.message) PyVal.none) := by
  rcases hr : h (msgParams kvs) with e | r
  · simp [handle_message, handleMessageBody, ht, hd, hr]
  · simp [handle_message, handleMessageBody, ht, hd, hr]
    cases hi : (msgIdOf kvs).isNone <;> simp [hi]

/-- Claim C1: for every well-formed JSON-RPC Request (a mapping whose
method is in the dispatch table and whose id is non-null), `_handle_message`
returns exactly one Response whose id equals the Request's id, carrying
either a `result` member or an `error` member. -/
theorem c1_request_unique_response (srv : Server) (kvs : List (String × PyVal))
    (hmem : msgMethod kvs = .str "initialize" ∨ msgMethod kvs = .str "tools/list" ∨
            msgMethod kvs = .str "tools/call")
    (hid : (msgIdOf kvs).isNone = false) :
    ∃ resp, handle_message srv (.dict kvs) = some resp ∧
      respIdOf resp = msgIdOf kvs ∧
      (dictHasKey resp "result" || dictHasKey resp "error") = true := by
  have hdt : ∃ h, dispatchLookup srv (msgMethod kvs) = .ok (some h) ∧
      (msgMethod kvs).truthy = true := by
    rcases hmem with h1 | h2 | h3
    · exact ⟨_, by rw [h1]; exact rfl, by rw [h1]; rfl⟩
    · exact ⟨_, by rw [h2]; exact rfl, by rw [h2]; rfl⟩
    · exact ⟨_, by rw [h3]; exact rfl, by rw [h3]; rfl⟩
  obtain ⟨h, hd, ht⟩ := hdt
  rw [handle_message_dispatched srv kvs h ht hd]
  rcases hr : h (msgParams kvs) with e | r
  · refine ⟨_, rfl, ?_, ?_⟩
    · rw [error_response_with_id _ _ _ hid]
      exact respIdOf_error_with_id _ _ _
    · rw [error_response_with_id _ _ _ hid]
      rfl
  · refine ⟨.dict [("jsonrpc", .str "2.0"), ("id", msgIdOf kvs), ("result", r)],
      ?_, respIdOf_result _ _, rfl⟩
    simp [hid]

/-- Claim C1 witness: an `initialize` request with id 1 against the
concrete one-tool server gets exactly one response with id 1. -/
theorem c1_request_unique_response_witness :
    ∃ resp, handle_message srv0 (.dict [("jsonrpc", .str "2.0"), ("id", .int 1),
        ("method", .str "initialize"), ("params", .dict [])]) = some resp ∧
      respIdOf resp = msgIdOf [("jsonrpc", .str "2.0"), ("id", .int 1),
        ("method", .str "initialize"), ("params", .dict [])] ∧
      (dictHasKey resp "result" || dictHasKey resp "error") = true :=
  c1_request_unique_response srv0 _ (Or.inl rfl) rfl

/-- Claim C2 counterexample: the Notification `(jsonrpc 2.0, method bogus)`
(no id) does not get `None` back: `_handle_message` returns a Method Not
Found error response, because the unknown-method branch fires before the
notification check. -/
theorem c2_notification_counterexample :
    handle_message srv0 (.dict [("jsonrpc", .str "2.0"), ("method", .str "bogus")]) =
      some (.dict [("jsonrpc", .str "2.0"),
        ("error", .dict [("code", .int (-32601)),
          ("message", .str "Method not found: bogus")])]) ∧
    (handle_message srv0
      (.dict [("jsonrpc", .str "2.0"), ("method", .str "bogus")])).isSome = true :=
  ⟨rfl, rfl⟩

/-- Claim C2 amended: a Notification (no id) gets `None` back exactly when
its method dispatches to a handler that completes without raising (the
biconditional); otherwise it gets an error response carrying no id member:
Method Not Found for an unknown method, Invalid Request for a missing or
falsy method, and Internal Error when the dispatched handler raises. -/
theorem c2_notification_amended :
    (∀ (srv : Server) (kvs : List (String × PyVal)),
        (msgIdOf kvs).isNone = true →
        (handle_message srv (.dict kvs) = Option.none ↔
          ∃ (h : PyVal → Except PyExn PyVal) (r : PyVal),
            (msgMethod kvs).truthy = true ∧
            dispatchLookup srv (msgMethod kvs) = .ok (some h) ∧
            h (msgParams kvs) = .ok r)) ∧
    (∀ (srv : Server) (kvs : List (String × PyVal)),
        (msgIdOf kvs).isNone = true →
        (msgMethod kvs).truthy = true →
        dispatchLookup srv (msgMethod kvs) = .ok Option.none →
        handle_message srv (.dict kvs) =
          some (error_response PyVal.none (-32601)
            ("Method not found: " ++ pyStr (msgMethod kvs)) PyVal.none) ∧
        dictHasKey (error_response PyVal.none (-32601)
          ("Method not found: " ++ pyStr (msgMethod kvs)) PyVal.none) "id" = false) ∧
    (∀ (srv : Server) (kvs : List (String × PyVal)),
        (msgIdOf kvs).isNone = true →
        (msgMethod kvs).truthy = false →
        handle_message srv (.dict kvs) =
          some (error_response PyVal.none (-32600) "Invalid Request" PyVal.none)) ∧
    (∀ (srv : Server) (kvs : List (String × PyVal))
        (h : PyVal → Except PyExn PyVal) (e : PyExn),
        (msgIdOf kvs).isNone = true →
        (msgMethod kvs).truthy = true →
        dispatchLookup srv (msgMethod kvs) = .ok (some h) →
        h (msgParams kvs) = .error e →
        handle_message srv (.dict kvs) =
          some (error_response PyVal.none (-32603)
            ("Internal error: " ++ e.message) PyVal.none)) := by
  refine ⟨?_, ?_, ?_, ?_⟩
  · intro srv kvs hid
    constructor
    · intro hnone
      by_cases ht : (msgMethod kvs).truthy = true
      · cases hdl : dispatchLookup srv (msgMethod kvs) with
        | error e => simp [handle_message, handleMessageBody, ht, hdl] at hnone
        | ok ho =>
            cases ho with
            | none => simp [handle_message, handleMessageBody, ht, hdl] at hnone
            | some h =>
                cases hr : h (msgParams kvs) with
                | error e =>
                    rw [handle_message_dispatched srv kvs h ht hdl] at hnone
                    simp [hr] at hnone
                | ok r => exact ⟨h, r, ht, rfl, hr⟩
      · simp only [Bool.not_eq_true] at ht
        simp [handle_message, handleMessageBody, ht] at hnone
    · rintro ⟨h, r, ht, hdl, hr⟩
      rw [handle_message_dispatched srv kvs h ht hdl]
      simp [hr, hid]
  · intro srv kvs hid ht hd
    have hideq : msgIdOf kvs = PyVal.none := (PyVal.isNone_true_iff _).mp hid
    constructor
    · simp [handle_message, handleMessageBody, ht, hd, hideq]
    · rw [error_response_without_id]
      rfl
  · intro srv kvs hid ht
    have hideq : msgIdOf kvs = PyVal.none := (PyVal.isNone_true_iff _).mp hid
    simp [handle_message, handleMessageBody, ht, hideq]
  · intro srv kvs h e hid ht hdl hr
    have hideq : msgIdOf kvs = PyVal.none := (PyVal.isNone_true_iff _).mp hid
    rw [handle_message_dispatched srv kvs h ht hdl]
    simp [hr, hideq]

/-- Claim C2 amended witness: against the concrete server, an `initialize`
Notification gets `None` (via the biconditional), a `bogus`-method
Notification gets an id-less Method Not Found response, a method-less
Notification gets an id-less Invalid Request response, and an `initialize`
Notification whose handler raises (non-mapping `params`) gets an id-less
Internal Error response. -/
theorem c2_notification_amended_witness :
    handle_message srv0 (.dict [("jsonrpc", .str "2.0"),
      ("method", .str "initialize"), ("params", .dict [])]) = Option.none ∧
    handle_message srv0 (.dict [("jsonrpc", .str "2.0"), ("method", .str "bogus")]) =
      some (error_response PyVal.none (-32601)
        ("Method not found: " ++ pyStr (msgMethod
          [("jsonrpc", .str "2.0"), ("method", .str "bogus")])) PyVal.none) ∧
    handle_message srv0 (.dict [("jsonrpc", .str "2.0")]) =
      some (error_response PyVal.none (-32600) "Invalid Request" PyVal.none) ∧
    handle_message srv0 (.dict [("jsonrpc", .str "2.0"),
        ("method", .str "initialize"), ("params", .int 5)]) =
      some (error_response PyVal.none (-32603)
        ("Internal error: " ++
          (PyExn.attributeError "object has no attribute get").message)
        PyVal.none) :=
  ⟨(c2_notification_amended.1 srv0
      [("jsonrpc", .str "2.0"), ("method", .str "initialize"), ("params", .dict [])]
      rfl).mpr
      ⟨handleInitRequest srv0.serverName srv0.serverVersion,
       initializeResult srv0.serverName srv0.serverVersion, rfl, rfl, rfl⟩,
   (c2_notification_amended.2.1 srv0
      [("jsonrpc", .str "2.0"), ("method", .str "bogus")] rfl rfl rfl).1,
   c2_notification_amended.2.2.1 srv0 [("jsonrpc", .str "2.0")] rfl rfl,
   c2_notification_amended.2.2.2 srv0
      [("jsonrpc", .str "2.0"), ("method", .str "initialize"), ("params", .int 5)]
      (handleInitRequest srv0.serverName srv0.serverVersion)
      (PyExn.attributeError "object has no attribute get") rfl rfl rfl rfl⟩

/-- Claim C3 counterexample: the Parse Error response returned for a
non-mapping message carries no `id` member at all (rather than an `id`
equal to null): `_error_response` adds `id` only when `msg_id is not None`. -/
theorem c3_parse_error_counterexample :
    handle_message srv0 (.int 5) =
      some (error_response PyVal.none (-32700) "Parse error" PyVal.none) ∧
    dictHasKey (error_response PyVal.none (-32700) "Parse error" PyVal.none)
      "id" = false :=
  ⟨rfl, rfl⟩

/-- Claim C3 amended: when the raw message is not a mapping, the handler
returns a Parse Error response with code -32700 that omits the id member;
more generally, every error response built with no extractable id omits
the id member. -/
theorem c3_parse_error_amended :
    (∀ (srv : Server) (v : PyVal), v.isDict = false →
        handle_message srv v =
          some (error_response PyVal.none (-32700) "Parse error" PyVal.none)) ∧
    (∀ (code : Int) (s : String) (d : PyVal),
        dictHasKey (error_response PyVal.none code s d) "id" = false) := by
  constructor
  · intro srv v hv
    cases v with
    | dict kvs => simp [PyVal.isDict] at hv
    | none => rfl
    | bool b => rfl
    | int n => rfl
    | str t => rfl
    | list xs => rfl
  · intro code s d
    cases hd : d.isNone <;> simp [error_response, dictHasKey, hd, PyVal.isNone]

/-- Claim C3 amended witness: the concrete non-mapping message `5` gets the
id-less Parse Error response. -/
theorem c3_parse_error_amended_witness :
    (PyVal.int 5).isDict = false ∧
    handle_message srv0 (.int 5) =
      some (error_response PyVal.none (-32700) "Parse error" PyVal.none) ∧
    dictHasKey (error_response PyVal.none (-32700) "Parse error" PyVal.none)
      "id" = false :=
  ⟨rfl, c3_parse_error_amended.1 srv0 (.int 5) rfl,
   c3_parse_error_amended.2 (-32700) "Parse error" PyVal.none⟩

/-- Claim C4 counterexample: when the server body exits with an unexpected
exception, `run()` swallows it: nothing propagates to the caller, contrary
to the claimed log-and-re-raise behaviour (the `except Exception` clause at
lines 71-72 of `mcp_server.py` only logs). -/
theorem c4_run_counterexample :
    (serverRun (.failed "transport exploded")).propagated = Option.none ∧
    (serverRun (.failed "transport exploded")).stopCalled = true :=
  ⟨rfl, rfl⟩

/-- Claim C4 amended: `run()` always calls `transport.stop()` on exit,
whatever the exit path, and never re-raises: interruptions and unexpected
exceptions alike are logged and swallowed. -/
theorem c4_run_amended (body : BodyOutcome) :
    (serverRun body).stopCalled = true ∧
    (serverRun body).propagated = Option.none := by
  cases body <;> exact ⟨rfl, rfl⟩

/-- A second tool sharing `simpleTool`'s name. -/
def simpleToolB : Tool :=
  { simpleTool with description := "duplicate-name variant" }

/-- A tool with a distinct name, for the distinct-names witness. -/
def otherTool : Tool :=
  { simpleTool with name := "other" }

/-- Claim C5 counterexample: the adapter keys tools by name, so a list of
two tools sharing one name yields a `tools/list` result of length 1, not 2. -/
theorem c5_list_tools_counterexample :
    (MCPAdapter.ofTools [simpleTool, simpleToolB]).list_tools.length = 1 ∧
    ([simpleTool, simpleToolB] : List Tool).length = 2 ∧
    (MCPAdapter.ofTools [simpleTool, simpleToolB]).list_tools.length ≠
      ([simpleTool, simpleToolB] : List Tool).length :=
  ⟨rfl, rfl, by decide⟩

/-- Inserting a fresh key appends it. -/
theorem dictInsert_fresh {α : Type} (acc : List (String × α)) (k : String) (v : α)
    (h : ∀ p ∈ acc, p.1 ≠ k) : dictInsert acc k v = acc ++ [(k, v)] := by
  unfold dictInsert
  have : acc.any (fun p => p.1 == k) = false := by
    simp only [List.any_eq_false]
    intro p hp
    simp [h p hp]
  rw [this]
  simp

/-- Folding the adapter's dict comprehension over tools with names fresh
for the accumulator and mutually distinct just appends the pairs. -/
theorem foldl_dictInsert_fresh (tools : List Tool) :
    ∀ acc : List (String × Tool),
      (tools.map Tool.name).Nodup →
      (∀ t ∈ tools, ∀ p ∈ acc, p.1 ≠ t.name) →
      tools.foldl (fun a t => dictInsert a t.name t) acc =
        acc ++ tools.map (fun t => (t.name, t)) := by
  induction tools with
  | nil => intro acc _ _; simp
  | cons t ts ih =>
      intro acc hnodup hfresh
      have hnd := List.nodup_cons.mp hnodup
      rw [List.foldl_cons,
        dictInsert_fresh acc t.name t (fun p hp => hfresh t (by simp) p hp),
        ih (acc ++ [(t.name, t)]) hnd.2]
      · simp
      · intro u hu p hp
        rcases List.mem_append.mp hp with hacc | hsingle
        · exact hfresh u (by simp [hu]) p hacc
        · have hp1 : p.1 = t.name := by
            rcases List.mem_singleton.mp hsingle with rfl
            rfl
          rw [hp1]
          intro heq
          exact hnd.1 (heq ▸ List.mem_map_of_mem Tool.name hu)

/-- Claim C5 amended: for every list of tools with pairwise-distinct names,
the `tools/list` result has exactly one entry per tool, in order, and each
entry is the dict with the tool's name, description and an `inputSchema`
built from the schema's `properties` and `required` members. -/
theorem c5_list_tools_amended (tools : List Tool)
    (hnodup : (tools.map Tool.name).Nodup) :
    (MCPAdapter.ofTools tools).list_tools.length = tools.length ∧
    (MCPAdapter.ofTools tools).list_tools = tools.map (fun t =>
      PyVal.dict [("name", .str t.name), ("description", .str t.description),
        ("inputSchema", .dict [("type", .str "object"),
          ("properties", (alistGet t.parameters "properties").getD (.dict [])),
          ("required", (alistGet t.parameters "required").getD (.list []))])]) := by
  have hbase : pyDictOfTools tools = tools.map (fun t => (t.name, t)) := by
    have := foldl_dictInsert_fresh tools [] hnodup (by intro t _ p hp; cases hp)
    simpa [pyDictOfTools] using this
  constructor
  · simp [MCPAdapter.list_tools, MCPAdapter.ofTools, hbase]
  · simp [MCPAdapter.list_tools, MCPAdapter.ofTools, hbase, toolToMcpSchema]

/-- Claim C5 amended witness: two distinctly-named tools produce a two-entry
listing of the claimed shape. -/
theorem c5_list_tools_amended_witness :
    (MCPAdapter.ofTools [simpleTool, otherTool]).list_tools.length = 2 ∧
    (MCPAdapter.ofTools [simpleTool, otherTool]).list_tools =
      [simpleTool, otherTool].map (fun t =>
        PyVal.dict [("name", .str t.name), ("description", .str t.description),
          ("inputSchema", .dict [("type", .str "object"),
            ("properties", (alistGet t.parameters "properties").getD (.dict [])),
            ("required", (alistGet t.parameters "required").getD (.list []))])]) :=
  c5_list_tools_amended [simpleTool, otherTool] (by decide)

/-- Claim C6: a `tools/call` for a registered tool whose `run` accepts the
arguments returns the tool's string result wrapped as a single text content
item; concretely, calling the echo tool named `simple` with text `hello`
yields the content item with text `Echo: hello`. -/
theorem c6_call_tool_success :
    (∀ (a : MCPAdapter) (name : String) (tool : Tool)
        (args : List (String × PyVal)) (r : PyVal),
        name ≠ "" →
        alistGet a.tools name = some tool →
        tool.run args = .ok r →
        handle_call_tool a (.dict [("name", .str name), ("arguments", .dict args)]) =
          .ok (.dict [("content", .list [.dict [("type", .str "text"),
            ("text", .str (pyStr r))]])])) ∧
    handle_call_tool (MCPAdapter.ofTools [simpleTool])
        (.dict [("name", .str "simple"), ("arguments", .dict [("text", .str "hello")])]) =
      .ok (.dict [("content", .list [.dict [("type", .str "text"),
        ("text", .str "Echo: hello")]])]) := by
  constructor
  · intro a name tool args r hname hlookup hrun
    have ht : (PyVal.str name).truthy = true := by
      simp [PyVal.truthy, hname]
    simp [handle_call_tool, PyVal.get, alistGet, ht,
      MCPAdapter.execute_tool, lookupToolKey, hlookup, kwargsUnpack,
      Except.bind, hrun]
  · rfl

/-- Claim C6 witness: the general success property applied to the concrete
echo tool and arguments. -/
theorem c6_call_tool_success_witness :
    handle_call_tool (MCPAdapter.ofTools [simpleTool])
        (.dict [("name", .str "simple"), ("arguments", .dict [("text", .str "hi")])]) =
      .ok (.dict [("content", .list [.dict [("type", .str "text"),
        ("text", .str (pyStr (.str "Echo: hi")))]])]) :=
  c6_call_tool_success.1 (MCPAdapter.ofTools [simpleTool]) "simple" simpleTool
    [("text", .str "hi")] (.str "Echo: hi") (by decide) rfl rfl

/-- Claim C7 counterexample: a Request whose `method` member is present but
equal to the empty string is answered with Invalid Request (-32600), not
Method Not Found (-32601), because `_handle_message` tests the method for
Python truthiness, not presence. -/
theorem c7_method_not_found_counterexample :
    dictHasKey (.dict [("jsonrpc", .str "2.0"), ("id", .int 1), ("method", .str "")])
      "method" = true ∧
    handle_message srv0
        (.dict [("jsonrpc", .str "2.0"), ("id", .int 1), ("method", .str "")]) =
      some (error_response (.int 1) (-32600) "Invalid Request" PyVal.none) :=
  ⟨rfl, rfl⟩

/-- Claim C7 amended: for every Request whose method is a non-empty string
not in the dispatch table, `_handle_message` returns a Method Not Found
response with code -32601 whose message appends the offending method name;
the concrete `bogus` request with id 4 gets exactly the claimed response
object. -/
theorem c7_method_not_found_amended :
    (∀ (srv : Server) (kvs : List (String × PyVal)) (s : String),
        msgMethod kvs = .str s → s ≠ "" →
        s ≠ "initialize" → s ≠ "tools/list" → s ≠ "tools/call" →
        handle_message srv (.dict kvs) =
          some (error_response (msgIdOf kvs) (-32601)
            ("Method not found: " ++ s) PyVal.none)) ∧
    handle_message srv0 (.dict [("jsonrpc", .str "2.0"), ("id", .int 4),
        ("method", .str "bogus"), ("params", .dict [])]) =
      some (.dict [("jsonrpc", .str "2.0"),
        ("error", .dict [("code", .int (-32601)),
          ("message", .str "Method not found: bogus")]),
        ("id", .int 4)]) := by
  constructor
  · intro srv kvs s hm hs h1 h2 h3
    have ht : (PyVal.str s).truthy = true := by
      simp [PyVal.truthy, hs]
    have hd : dispatchLookup srv (PyVal.str s) = .ok Option.none := by
      simp [dispatchLookup, h1, h2, h3]
    simp [handle_message, handleMessageBody, hm, ht, hd, pyStr]
  · rfl

/-- Claim C7 amended witness: the general part applied to a fresh unknown
method name against the concrete server. -/
theorem c7_method_not_found_amended_witness :
    handle_message srv0 (.dict [("jsonrpc", .str "2.0"), ("id", .int 7),
        ("method", .str "tools/erase")]) =
      some (error_response
        (msgIdOf [("jsonrpc", .str "2.0"), ("id", .int 7), ("method", .str "tools/erase")])
        (-32601) ("Method not found: " ++ "tools/erase") PyVal.none) :=
  c7_method_not_found_amended.1 srv0
    [("jsonrpc", .str "2.0"), ("id", .int 7), ("method", .str "tools/erase")]
    "tools/erase" rfl (by decide) (by decide) (by decide) (by decide)

/-- Claim C8: on a non-empty input line that fails JSON decoding, one step
of the stdio read loop sends exactly the parse-error response, enqueues
nothing, and keeps running; the loop then carries on with the remaining
lines from that state. -/
theorem c8_read_loop_parse_error (decode : String → Option PyVal)
    (st : ReadState) (line : String)
    (hrun : st.running = true)
    (hne : line ≠ "")
    (hstrip : stripTrailingNewlines line ≠ "")
    (hdec : decode (stripTrailingNewlines line) = Option.none) :
    readStep decode st line =
      { queue := st.queue, sent := st.sent ++ [parseErrorResponse], running := true } ∧
    ∀ rest, readLoop decode st (line :: rest) =
      readLoop decode
        { queue := st.queue, sent := st.sent ++ [parseErrorResponse], running := true }
        rest := by
  obtain ⟨q, sent, running⟩ := st
  simp only at hrun
  subst hrun
  have hstep : readStep decode ⟨q, sent, true⟩ line =
      { queue := q, sent := sent ++ [parseErrorResponse], running := true } := by
    simp [readStep, hne, hstrip, hdec]
  refine ⟨hstep, ?_⟩
  intro rest
  simp [readLoop, hstep]

/-- Claim C8 witness: the concrete line `not valid json` with a decoder
rejecting it, from the fresh transport state. -/
theorem c8_read_loop_parse_error_witness :
    readStep (fun _ => Option.none) ⟨[], [], true⟩ "not valid json" =
      { queue := [], sent := [parseErrorResponse], running := true } ∧
    ∀ rest, readLoop (fun _ => Option.none) ⟨[], [], true⟩ ("not valid json" :: rest) =
      readLoop (fun _ => Option.none) ⟨[], [parseErrorResponse], true⟩ rest :=
  c8_read_loop_parse_error (fun _ => Option.none) ⟨[], [], true⟩ "not valid json"
    rfl (by decide) (by decide) rfl

/-- The first concrete FIFO request of the spec's scenario 4. -/
def fifoRequest (i : Int) (text : String) : PyVal :=
  .dict [("jsonrpc", .str "2.0"), ("id", .int i), ("method", .str "tools/call"),
         ("params", .dict [("name", .str "simple"),
           ("arguments", .dict [("text", .str text)])])]

/-- Claim C9: the message loop consumes the queue in strict FIFO order,
awaiting each handler to completion and sending its response before
touching the next message, so the emitted responses are exactly the
successful handler outputs in arrival order; concretely, two back-to-back
`tools/call` requests with ids 1 and 2 get their responses emitted in the
order 1 then 2. -/
theorem c9_fifo_responses :
    (∀ (handler : PyVal → Except PyExn (Option PyVal))
        (polls : List (Option PyVal)),
        runMessageLoop handler polls =
          (polls.filterMap id).filterMap (fun m =>
            match handler m with
            | .ok (some r) => some r
            | _ => Option.none)) ∧
    runMessageLoop (fun m => .ok (handle_message srv0 m))
        [some (fifoRequest 1 "first"), some (fifoRequest 2 "second")] =
      [.dict [("jsonrpc", .str "2.0"), ("id", .int 1), ("result",
          .dict [("content", .list [.dict [("type", .str "text"),
            ("text", .str "Echo: first")]])])],
       .dict [("jsonrpc", .str "2.0"), ("id", .int 2), ("result",
          .dict [("content", .list [.dict [("type", .str "text"),
            ("text", .str "Echo: second")]])])]] ∧
    (runMessageLoop (fun m => .ok (handle_message srv0 m))
        [some (fifoRequest 1 "first"), some (fifoRequest 2 "second")]).map respIdOf =
      [.int 1, .int 2] := by
  refine ⟨?_, rfl, rfl⟩
  intro handler polls
  induction polls with
  | nil => rfl
  | cons p rest ih =>
      cases p with
      | none => simpa [runMessageLoop] using ih
      | some m =>
          rcases hm : handler m with e | r
          · simp [runMessageLoop, hm, ih]
          · rcases r with _ | r <;> simp [runMessageLoop, hm, ih]

/-- A tool whose declared schema requires `text` but whose `run` accepts
any call, used to witness that no schema check precedes invocation. -/
def lenientTool : Tool :=
  { name := "lenient",
    description := "accepts any call",
    parameters := [("required", .list [.str "text"])],
    run := fun _ => .ok (.str "ok") }

/-- Claim C10: every `TypeError` escaping a tool's `run` is rewritten by
`execute_tool` into a `ValueError` whose message begins with
`Invalid arguments for tool`, and no schema-based argument check precedes
invocation: a registered tool is invoked even when a schema-required key is
absent from the arguments, and succeeds if its `run` does. -/
theorem c10_type_error_rewrite :
    (∀ (a : MCPAdapter) (name : String) (tool : Tool)
        (args : List (String × PyVal)) (m : String),
        alistGet a.tools name = some tool →
        tool.run args = .error (.typeError m) →
        a.execute_tool (.str name) (.dict args) =
          .error (.valueError ("Invalid arguments for tool " ++ squote ++ name ++
            squote ++ ": " ++ m)) ∧
        ∃ rest, ("Invalid arguments for tool " ++ squote ++ name ++
            squote ++ ": " ++ m) = "Invalid arguments for tool" ++ rest) ∧
    (∀ (a : MCPAdapter) (name : String) (tool : Tool)
        (args : List (String × PyVal)) (r : PyVal) (reqs : List PyVal) (k : String),
        alistGet a.tools name = some tool →
        alistGet tool.parameters "required" = some (.list reqs) →
        (PyVal.str k) ∈ reqs →
        alistGet args k = Option.none →
        tool.run args = .ok r →
        a.execute_tool (.str name) (.dict args) = .ok (.str (pyStr r))) := by
  constructor
  · intro a name tool args m hlookup hrun
    constructor
    · simp [MCPAdapter.execute_tool, lookupToolKey, hlookup, kwargsUnpack,
        Except.bind, hrun, pyStr]
    · refine ⟨" " ++ squote ++ name ++ squote ++ ": " ++ m, ?_⟩
      have hsplit : ("Invalid arguments for tool " : String) =
          "Invalid arguments for tool" ++ " " := rfl
      rw [hsplit]
      simp only [String.append_assoc]
  · intro a name tool args r reqs k hlookup _ _ _ hrun
    simp [MCPAdapter.execute_tool, lookupToolKey, hlookup, kwargsUnpack,
      Except.bind, hrun]

/-- Claim C10 witness: the echo tool called with an unexpected keyword is
reported as invalid arguments, and the lenient tool is executed despite a
missing schema-required key. -/
theorem c10_type_error_rewrite_witness :
    (MCPAdapter.ofTools [simpleTool]).execute_tool (.str "simple")
        (.dict [("oops", .str "x")]) =
      .error (.valueError ("Invalid arguments for tool " ++ squote ++ "simple" ++
        squote ++ ": " ++ "run() got an unexpected keyword argument")) ∧
    (MCPAdapter.ofTools [lenientTool]).execute_tool (.str "lenient") (.dict []) =
      .ok (.str (pyStr (.str "ok"))) :=
  ⟨(c10_type_error_rewrite.1 (MCPAdapter.ofTools [simpleTool]) "simple" simpleTool
      [("oops", .str "x")] "run() got an unexpected keyword argument" rfl rfl).1,
   c10_type_error_rewrite.2 (MCPAdapter.ofTools [lenientTool]) "lenient" lenientTool
      [] (.str "ok") [.str "text"] "text" rfl rfl (List.mem_singleton.mpr rfl) rfl rfl⟩
